import Mathlib

/-!
Shallow embedding of the nomination-pools-staking pallet of the Astar
repository (src/pallets/nomination-pools-staking/src/pallet/mod.rs),
together with theorems about the create_nomination_pool extrinsic.

The embedding keeps the source structure: the two call enums with their
codec indices, the SCALE compact encoding used for the balance argument,
the XCM instruction pipeline, the PalletDisabled storage flag, and the
event and error enums.  The runtime pieces the pallet is generic over
(the address-lookup encoding of the relay chain and the outbound XCM
channel) are passed in as an explicit context.
-/

namespace NominationPoolsStaking

/-- Little-endian base-256 digits of a natural number, written with an
explicit fuel argument so the recursion is structural; fuel equal to the
number itself always suffices because the value shrinks by a factor of
256 at every step. -/
def natToLEBytesAux : Nat → Nat → List Nat
  | 0, _ => []
  | _ + 1, 0 => []
  | fuel + 1, n + 1 => ((n + 1) % 256) :: natToLEBytesAux fuel ((n + 1) / 256)

/-- Minimal little-endian byte representation of a natural number (empty
for zero), as used by the big-integer mode of the SCALE compact
encoding. -/
def natToLEBytes (n : Nat) : List Nat := natToLEBytesAux n n

/-- SCALE compact encoding of a natural number, as produced by the
codec(compact) attribute on the balance argument of
NominationPoolsCall::Create: two low bits select the mode, the remaining
bits (little-endian) carry the value; values of 2 ^ 30 and above use the
big-integer mode with an explicit byte-length header. -/
def compactEncode (n : Nat) : List Nat :=
  if n < 2 ^ 6 then [n * 4]
  else if n < 2 ^ 14 then
    [(n * 4 + 1) % 256, (n * 4 + 1) / 256]
  else if n < 2 ^ 30 then
    [(n * 4 + 2) % 256, (n * 4 + 2) / 2 ^ 8 % 256,
     (n * 4 + 2) / 2 ^ 16 % 256, (n * 4 + 2) / 2 ^ 24 % 256]
  else
    (((natToLEBytes n).length - 4) * 4 + 3) :: natToLEBytes n

/-- The remote staking-pools sub-table call, mirroring the Rust enum
NominationPoolsCall: its Create variant has codec index 6 and carries a
compact-encoded balance and three address-lookup values.  Source stands
for the address-lookup type of the remote system. -/
inductive NominationPoolsCall (Source : Type) where
  | Create (value : Nat) (s1 s2 s3 : Source)

/-- The remote top-level call-table wrapper, mirroring the Rust enum
RelayChainCall: its NominationPools variant has codec index 39. -/
inductive RelayChainCall (Source : Type) where
  | NominationPools (call : NominationPoolsCall Source)

/-- SCALE encoding of a NominationPoolsCall, given the encoding of the
Source type: the variant tag byte 6, then the compact-encoded amount,
then the three encoded addresses. -/
def NominationPoolsCall.encode {Source : Type} (encSource : Source → List Nat) :
    NominationPoolsCall Source → List Nat
  | .Create value s1 s2 s3 =>
      6 :: (compactEncode value ++ encSource s1 ++ encSource s2 ++ encSource s3)

/-- SCALE encoding of a RelayChainCall: the variant tag byte 39 followed
by the encoding of the wrapped call. -/
def RelayChainCall.encode {Source : Type} (encSource : Source → List Nat) :
    RelayChainCall Source → List Nat
  | .NominationPools c => 39 :: c.encode encSource

/-- Interior junctions of an XCM location; the pallet only uses Here. -/
inductive Junctions where
  | Here
deriving DecidableEq

/-- A relative XCM location: a number of parent hops and the interior
junctions below them. -/
structure MultiLocation where
  parents : Nat
  interior : Junctions
deriving DecidableEq

/-- The destination MultiLocation::parent(): one hop up, interior Here. -/
def MultiLocation.parent : MultiLocation := ⟨1, .Here⟩

/-- The local location built from the junctions Here: zero hops. -/
def hereLocation : MultiLocation := ⟨0, .Here⟩

/-- A concrete fungible asset: the location identifying the asset and an
amount, as built by the pair-into conversion in the source. -/
structure MultiAsset where
  id : MultiLocation
  amount : Nat
deriving DecidableEq

/-- XCM weight limits; the pallet uses Unlimited. -/
inductive WeightLimit where
  | Unlimited
  | Limited (refTime proofSize : Nat)
deriving DecidableEq

/-- XCM origin kinds; the source imports SovereignAccount. -/
inductive OriginKind where
  | SovereignAccount
deriving DecidableEq

/-- The XCM instructions imported by the pallet.  Transact appears in
the imports (and in commented-out code) but is never constructed. -/
inductive Instruction where
  | WithdrawAsset (asset : MultiAsset)
  | BuyExecution (fees : MultiAsset) (weight_limit : WeightLimit)
  | Transact (origin_kind : OriginKind) (refTime proofSize : Nat) (call : List Nat)
deriving DecidableEq

/-- The dispatch origin of a call: signed by an account, root, or none
(the latter two make ensure_signed fail). -/
inductive Origin (AccountId : Type) where
  | signed (who : AccountId)
  | root
  | unsigned
deriving DecidableEq

/-- The pallet error enum. -/
inductive Error where
  | Disabled
  | FailedXcmTransaction
  | FailedToConvertBalance
deriving DecidableEq

/-- Dispatch-level errors: a pallet error, or the BadOrigin error raised
by ensure_signed. -/
inductive DispatchError where
  | module (e : Error)
  | badOrigin
deriving DecidableEq

/-- The outcome of dispatching the extrinsic. -/
inductive DispatchResult where
  | ok
  | err (e : DispatchError)
deriving DecidableEq

/-- The events deposited by the pallet. -/
inductive Event (AccountId SmartContract : Type) where
  | BondAndStake (who : AccountId) (contract : SmartContract)
  | DebugNominationPool (encoded : List Nat)
deriving DecidableEq

/-- The pallet storage: the PalletDisabled maintenance flag. -/
structure State where
  palletDisabled : Bool
deriving DecidableEq

/-- The runtime pieces the pallet is generic over: encodeSource models
the SCALE encoding of the unlookup of an account (the composite of
Lookup::unlookup and Encode::encode), and sendAccepts models whether the
outbound channel of pallet_xcm accepts a message for a destination. -/
structure Ctx (AccountId : Type) where
  encodeSource : AccountId → List Nat
  sendAccepts : MultiLocation → List Instruction → Bool

/-- The fallible narrowing of a local balance (modelled as an
arbitrary-width natural number) to the u128 wire type, mirroring the
try_into call in the source: it succeeds exactly when the value fits in
128 bits and never truncates. -/
def balanceToU128 (value : Nat) : Option Nat :=
  if value < 2 ^ 128 then some value else none

/-- ensure_pallet_enabled: Err(Disabled) when the PalletDisabled flag is
set, Ok otherwise; a pure read of the flag. -/
def ensure_pallet_enabled (st : State) : Except Error Unit :=
  if st.palletDisabled then .error .Disabled else .ok ()

/-- ensure_signed: the account when the origin is signed, BadOrigin
otherwise. -/
def ensure_signed {A : Type} : Origin A → Except DispatchError A
  | .signed who => .ok who
  | _ => .error .badOrigin

/-- The two-instruction XCM pipeline built by create_nomination_pool:
withdraw the converted amount of the local-native asset at Here, then
buy execution with the constant fee 1000000000 and an Unlimited weight
limit.  The Transact instruction is commented out in the source and so
absent here. -/
def pipeline (wire : Nat) : List Instruction :=
  [.WithdrawAsset ⟨hereLocation, wire⟩,
   .BuyExecution ⟨hereLocation, 1000000000⟩ .Unlimited]

/-- Everything observable about one call of the extrinsic: the dispatch
result, the deposited events in order, the messages handed to send_xcm
with their destinations, and the storage state after the call. -/
structure CallOutcome (AccountId SmartContract : Type) where
  result : DispatchResult
  events : List (Event AccountId SmartContract)
  sent : List (MultiLocation × List Instruction)
  state : State
deriving DecidableEq

/-- The create_nomination_pool extrinsic: check the maintenance gate,
require a signed origin, build the NominationPoolsCall::Create call with
the staker address in all three roles, encode it and deposit the
DebugNominationPool event, convert the balance to u128, build the
two-instruction pipeline, and hand it to send_xcm toward the parent;
on acceptance deposit BondAndStake and return Ok, otherwise return the
FailedXcmTransaction error. -/
def create_nomination_pool {A C : Type} (ctx : Ctx A) (st : State)
    (origin : Origin A) (contract_id : C) (value : Nat) :
    CallOutcome A C :=
  match ensure_pallet_enabled st with
  | .error _ => ⟨.err (.module .Disabled), [], [], st⟩
  | .ok _ =>
    match ensure_signed origin with
    | .error e => ⟨.err e, [], [], st⟩
    | .ok staker =>
      let call : NominationPoolsCall A := .Create value staker staker staker
      let encoded_call := call.encode ctx.encodeSource
      let events1 : List (Event A C) := [.DebugNominationPool encoded_call]
      match balanceToU128 value with
      | none => ⟨.err (.module .FailedToConvertBalance), events1, [], st⟩
      | some wire =>
        let messages := pipeline wire
        let dest := MultiLocation.parent
        if ctx.sendAccepts dest messages then
          ⟨.ok, events1 ++ [.BondAndStake staker contract_id],
           [(dest, messages)], st⟩
        else
          ⟨.err (.module .FailedXcmTransaction), events1,
           [(dest, messages)], st⟩

/-- A concrete context for witnesses: an account encodes to a single
byte and the channel accepts every message. -/
def acceptCtx : Ctx Nat :=
  ⟨fun a => [a % 256], fun _ _ => true⟩

/-- A concrete context whose channel rejects every message. -/
def rejectCtx : Ctx Nat :=
  ⟨fun a => [a % 256], fun _ _ => false⟩

/-- With the maintenance flag set, the call returns the Disabled error
immediately: no events, no messages, unchanged state. -/
theorem create_disabled {A C : Type} (ctx : Ctx A) (st : State)
    (origin : Origin A) (cid : C) (value : Nat) (h : st.palletDisabled = true) :
    create_nomination_pool ctx st origin cid value =
      ⟨.err (.module .Disabled), [], [], st⟩ := by
  simp [create_nomination_pool, ensure_pallet_enabled, h]

/-- With the flag clear and a signed origin, an amount that does not fit
in u128 yields the FailedToConvertBalance error after the diagnostic
event was deposited and before any message is sent. -/
theorem create_signed_overflow {A C : Type} (ctx : Ctx A) (st : State)
    (who : A) (cid : C) (value : Nat) (h : st.palletDisabled = false)
    (hv : ¬ value < 2 ^ 128) :
    create_nomination_pool ctx st (.signed who) cid value =
      ⟨.err (.module .FailedToConvertBalance),
       [.DebugNominationPool
          ((NominationPoolsCall.Create value who who who).encode ctx.encodeSource)],
       [], st⟩ := by
  simp only [create_nomination_pool, ensure_pallet_enabled, ensure_signed, h,
             Bool.false_eq_true, if_false, balanceToU128, if_neg hv]

/-- With the flag clear, a signed origin and a convertible amount, the
call hands the two-instruction pipeline to the channel toward the
parent; the outcome depends only on whether the channel accepts it. -/
theorem create_signed_send {A C : Type} (ctx : Ctx A) (st : State)
    (who : A) (cid : C) (value : Nat) (h : st.palletDisabled = false)
    (hv : value < 2 ^ 128) :
    create_nomination_pool ctx st (.signed who) cid value =
      (if ctx.sendAccepts MultiLocation.parent (pipeline value) then
        ⟨.ok,
         [.DebugNominationPool
            ((NominationPoolsCall.Create value who who who).encode ctx.encodeSource),
          .BondAndStake who cid],
         [(MultiLocation.parent, pipeline value)], st⟩
      else
        ⟨.err (.module .FailedXcmTransaction),
         [.DebugNominationPool
            ((NominationPoolsCall.Create value who who who).encode ctx.encodeSource)],
         [(MultiLocation.parent, pipeline value)], st⟩) := by
  simp only [create_nomination_pool, ensure_pallet_enabled, ensure_signed, h,
             Bool.false_eq_true, if_false, balanceToU128, if_pos hv,
             List.singleton_append]

/-- The storage state is returned unchanged on every path of the call. -/
theorem create_nomination_pool_state {A C : Type} (ctx : Ctx A) (st : State)
    (origin : Origin A) (cid : C) (value : Nat) :
    (create_nomination_pool ctx st origin cid value).state = st := by
  unfold create_nomination_pool
  repeat' split
  all_goals dsimp only
  repeat' split
  all_goals rfl

/-- C1 counterexample: with the flag clear, caller 7 (whose address
encodes to the single byte 7) and amount 1000, the encoding emitted in
the diagnostic event is [6, 161, 15, 7, 7, 7]: it begins with the inner
tag byte 6, not with the outer-table tag byte 39 followed by 6 as the
claim states, and it differs from the encoding of the nested
RelayChainCall form of the same call. -/
theorem C1_counterexample :
    (create_nomination_pool acceptCtx ⟨false⟩ (.signed 7) (0 : Nat) 1000).events =
      [.DebugNominationPool [6, 161, 15, 7, 7, 7], .BondAndStake 7 0] ∧
    [6, 161, 15, 7, 7, 7].take 2 ≠ [39, 6] ∧
    (RelayChainCall.NominationPools (.Create 1000 7 7 7)).encode
        acceptCtx.encodeSource = [39, 6, 161, 15, 7, 7, 7] := by
  decide

/-- C1 (amended): for every signed caller past the maintenance gate
with amount value and caller address who, the descriptor built by
create_nomination_pool is the bare NominationPoolsCall (the
RelayChainCall wrapper with outer tag 39 is never applied), and the
binary encoding emitted in the diagnostic event begins with the inner
tag byte 6 followed by the compact-encoded amount and the encoded
address three times. -/
theorem C1_debug_event_encoding {A C : Type} (ctx : Ctx A) (st : State)
    (who : A) (cid : C) (value : Nat) (h : st.palletDisabled = false) :
    (create_nomination_pool ctx st (.signed who) cid value).events.head? =
      some (.DebugNominationPool
        (6 :: (compactEncode value ++ ctx.encodeSource who ++
               ctx.encodeSource who ++ ctx.encodeSource who))) := by
  by_cases hv : value < 2 ^ 128
  · rw [create_signed_send ctx st who cid value h hv]
    split <;> simp [NominationPoolsCall.encode]
  · rw [create_signed_overflow ctx st who cid value h hv]
    simp [NominationPoolsCall.encode]

/-- C1 witness: the amended theorem applied to the concrete context
with flag clear, caller 7 and amount 1000. -/
theorem C1_debug_event_encoding_witness :
    (⟨false⟩ : State).palletDisabled = false ∧
    (create_nomination_pool acceptCtx ⟨false⟩ (.signed 7) (0 : Nat) 1000).events.head? =
      some (.DebugNominationPool
        (6 :: (compactEncode 1000 ++ acceptCtx.encodeSource 7 ++
               acceptCtx.encodeSource 7 ++ acceptCtx.encodeSource 7))) :=
  ⟨rfl, C1_debug_event_encoding acceptCtx ⟨false⟩ 7 0 1000 rfl⟩

/-- C2: whenever pipeline construction is reached (gate clear, signed
origin, convertible amount), the message handed to the dispatcher is
exactly the two-instruction sequence: a WithdrawAsset for the converted
wire amount of the asset at Here, then a BuyExecution whose fee is the
constant 1000000000 with an Unlimited weight limit, sent toward the
parent location; nothing else, in particular no Transact instruction. -/
theorem C2_pipeline_exact {A C : Type} (ctx : Ctx A) (st : State)
    (who : A) (cid : C) (value : Nat) (h : st.palletDisabled = false)
    (hv : value < 2 ^ 128) :
    (create_nomination_pool ctx st (.signed who) cid value).sent =
      [(MultiLocation.parent,
        [.WithdrawAsset ⟨hereLocation, value⟩,
         .BuyExecution ⟨hereLocation, 1000000000⟩ .Unlimited])] := by
  rw [create_signed_send ctx st who cid value h hv]
  split <;> rfl

/-- C2 witness: the theorem applied to the concrete context with flag
clear, caller 7 and amount 1000. -/
theorem C2_pipeline_exact_witness :
    (⟨false⟩ : State).palletDisabled = false ∧ (1000 : Nat) < 2 ^ 128 ∧
    (create_nomination_pool acceptCtx ⟨false⟩ (.signed 7) (0 : Nat) 1000).sent =
      [(MultiLocation.parent,
        [.WithdrawAsset ⟨hereLocation, 1000⟩,
         .BuyExecution ⟨hereLocation, 1000000000⟩ .Unlimited])] :=
  ⟨rfl, by decide, C2_pipeline_exact acceptCtx ⟨false⟩ 7 0 1000 rfl (by decide)⟩

/-- C3: while the maintenance flag is set, create_nomination_pool fails
with the Disabled error, emits no event and performs no channel
interaction, for every origin, contract and amount. -/
theorem C3_disabled_no_effects {A C : Type} (ctx : Ctx A) (st : State)
    (origin : Origin A) (cid : C) (value : Nat) (h : st.palletDisabled = true) :
    (create_nomination_pool ctx st origin cid value).result =
        .err (.module .Disabled) ∧
    (create_nomination_pool ctx st origin cid value).events = [] ∧
    (create_nomination_pool ctx st origin cid value).sent = [] := by
  rw [create_disabled ctx st origin cid value h]
  exact ⟨rfl, rfl, rfl⟩

/-- C3 witness: the theorem applied with the flag set, a signed caller
and amount 1000. -/
theorem C3_disabled_no_effects_witness :
    (⟨true⟩ : State).palletDisabled = true ∧
    ((create_nomination_pool acceptCtx ⟨true⟩ (.signed 7) (0 : Nat) 1000).result =
        .err (.module .Disabled) ∧
     (create_nomination_pool acceptCtx ⟨true⟩ (.signed 7) (0 : Nat) 1000).events = [] ∧
     (create_nomination_pool acceptCtx ⟨true⟩ (.signed 7) (0 : Nat) 1000).sent = []) :=
  ⟨rfl, C3_disabled_no_effects acceptCtx ⟨true⟩ (.signed 7) 0 1000 rfl⟩

/-- C4: the balance conversion succeeds and round-trips exactly on the
values representable in u128, fails on the others, and never truncates:
any value it returns equals the input. -/
theorem C4_balance_conversion_roundtrip (a : Nat) :
    (a < 2 ^ 128 → balanceToU128 a = some a) ∧
    (¬ a < 2 ^ 128 → balanceToU128 a = none) ∧
    (∀ b, balanceToU128 a = some b → b = a) := by
  refine ⟨fun h => ?_, fun h => ?_, fun b hb => ?_⟩
  · simp only [balanceToU128, if_pos h]
  · simp only [balanceToU128, if_neg h]
  · by_cases h : a < 2 ^ 128
    · simp only [balanceToU128, if_pos h, Option.some.injEq] at hb
      exact hb.symm
    · simp only [balanceToU128, if_neg h] at hb
      exact absurd hb (by simp)

/-- C4 witness: the theorem applied at 1000 (representable) and at
2 ^ 128 (not representable). -/
theorem C4_balance_conversion_roundtrip_witness :
    ((1000 : Nat) < 2 ^ 128 ∧ balanceToU128 1000 = some 1000) ∧
    (¬ (2 ^ 128 : Nat) < 2 ^ 128 ∧ balanceToU128 (2 ^ 128) = none) :=
  ⟨⟨by decide, (C4_balance_conversion_roundtrip 1000).1 (by decide)⟩,
   ⟨by decide, (C4_balance_conversion_roundtrip (2 ^ 128)).2.1 (by decide)⟩⟩

/-- C5 counterexample: with the flag clear, signed caller 7 and amount
2 ^ 128 (beyond the u128 range), the call does return the
FailedToConvertBalance error, but the event list is not empty as the
claim states: the diagnostic event was deposited before the conversion
was attempted. -/
theorem C5_counterexample :
    (create_nomination_pool acceptCtx ⟨false⟩ (.signed 7) (0 : Nat) (2 ^ 128)).result =
      .err (.module .FailedToConvertBalance) ∧
    (create_nomination_pool acceptCtx ⟨false⟩ (.signed 7) (0 : Nat) (2 ^ 128)).events ≠
      [] := by
  decide

/-- C5 (amended): for every signed request past the maintenance gate
whose amount exceeds the u128-representable range,
create_nomination_pool returns the FailedToConvertBalance error and
exactly one event has been emitted: the diagnostic DebugNominationPool
event carrying the encoded call, deposited before the conversion; the
BondAndStake event is not emitted and no message is sent. -/
theorem C5_overflow_one_event {A C : Type} (ctx : Ctx A) (st : State)
    (who : A) (cid : C) (value : Nat) (h : st.palletDisabled = false)
    (hv : ¬ value < 2 ^ 128) :
    (create_nomination_pool ctx st (.signed who) cid value).result =
        .err (.module .FailedToConvertBalance) ∧
    (create_nomination_pool ctx st (.signed who) cid value).events =
      [.DebugNominationPool
        ((NominationPoolsCall.Create value who who who).encode ctx.encodeSource)] ∧
    (create_nomination_pool ctx st (.signed who) cid value).sent = [] := by
  rw [create_signed_overflow ctx st who cid value h hv]
  exact ⟨rfl, rfl, rfl⟩

/-- C5 witness: the amended theorem applied at the concrete amount
2 ^ 128 with the flag clear and signed caller 7. -/
theorem C5_overflow_one_event_witness :
    (⟨false⟩ : State).palletDisabled = false ∧ ¬ (2 ^ 128 : Nat) < 2 ^ 128 ∧
    ((create_nomination_pool acceptCtx ⟨false⟩ (.signed 7) (0 : Nat) (2 ^ 128)).result =
        .err (.module .FailedToConvertBalance) ∧
     (create_nomination_pool acceptCtx ⟨false⟩ (.signed 7) (0 : Nat) (2 ^ 128)).events =
      [.DebugNominationPool
        ((NominationPoolsCall.Create (2 ^ 128) 7 7 7).encode acceptCtx.encodeSource)] ∧
     (create_nomination_pool acceptCtx ⟨false⟩ (.signed 7) (0 : Nat) (2 ^ 128)).sent = []) :=
  ⟨rfl, by decide,
   C5_overflow_one_event acceptCtx ⟨false⟩ 7 0 (2 ^ 128) rfl (by decide)⟩

/-- C6: when the channel rejects the message (gate clear, signed
origin, convertible amount), create_nomination_pool returns the
FailedXcmTransaction error; the event list holds exactly the diagnostic
event deposited before dispatch, so the BondAndStake confirmation was
not emitted. -/
theorem C6_channel_rejection {A C : Type} (ctx : Ctx A) (st : State)
    (who : A) (cid : C) (value : Nat) (h : st.palletDisabled = false)
    (hv : value < 2 ^ 128)
    (hr : ctx.sendAccepts MultiLocation.parent (pipeline value) = false) :
    (create_nomination_pool ctx st (.signed who) cid value).result =
        .err (.module .FailedXcmTransaction) ∧
    (create_nomination_pool ctx st (.signed who) cid value).events =
      [.DebugNominationPool
        ((NominationPoolsCall.Create value who who who).encode ctx.encodeSource)] := by
  rw [create_signed_send ctx st who cid value h hv, if_neg (by simp [hr])]
  exact ⟨rfl, rfl⟩

/-- C6 witness: the theorem applied with the always-rejecting channel,
flag clear, signed caller 7 and amount 1000. -/
theorem C6_channel_rejection_witness :
    (⟨false⟩ : State).palletDisabled = false ∧ (1000 : Nat) < 2 ^ 128 ∧
    rejectCtx.sendAccepts MultiLocation.parent (pipeline 1000) = false ∧
    ((create_nomination_pool rejectCtx ⟨false⟩ (.signed 7) (0 : Nat) 1000).result =
        .err (.module .FailedXcmTransaction) ∧
     (create_nomination_pool rejectCtx ⟨false⟩ (.signed 7) (0 : Nat) 1000).events =
      [.DebugNominationPool
        ((NominationPoolsCall.Create 1000 7 7 7).encode rejectCtx.encodeSource)]) :=
  ⟨rfl, by decide, rfl,
   C6_channel_rejection rejectCtx ⟨false⟩ 7 0 1000 rfl (by decide) rfl⟩

/-- C7: for every signed caller with the flag clear, an amount within
the u128 range and an accepting channel, create_nomination_pool returns
Ok and deposits exactly two events in order: the DebugNominationPool
event carrying the full encoded call and the BondAndStake event
carrying the caller and the contract. -/
theorem C7_success_two_events {A C : Type} (ctx : Ctx A) (st : State)
    (who : A) (cid : C) (value : Nat) (h : st.palletDisabled = false)
    (hv : value < 2 ^ 128)
    (ha : ctx.sendAccepts MultiLocation.parent (pipeline value) = true) :
    (create_nomination_pool ctx st (.signed who) cid value).result = .ok ∧
    (create_nomination_pool ctx st (.signed who) cid value).events =
      [.DebugNominationPool
        ((NominationPoolsCall.Create value who who who).encode ctx.encodeSource),
       .BondAndStake who cid] := by
  rw [create_signed_send ctx st who cid value h hv, if_pos ha]
  exact ⟨rfl, rfl⟩

/-- C7 witness: the theorem applied with the always-accepting channel,
flag clear, signed caller 7, contract 0 and amount 1000. -/
theorem C7_success_two_events_witness :
    (⟨false⟩ : State).palletDisabled = false ∧ (1000 : Nat) < 2 ^ 128 ∧
    acceptCtx.sendAccepts MultiLocation.parent (pipeline 1000) = true ∧
    ((create_nomination_pool acceptCtx ⟨false⟩ (.signed 7) (0 : Nat) 1000).result = .ok ∧
     (create_nomination_pool acceptCtx ⟨false⟩ (.signed 7) (0 : Nat) 1000).events =
      [.DebugNominationPool
        ((NominationPoolsCall.Create 1000 7 7 7).encode acceptCtx.encodeSource),
       .BondAndStake 7 0]) :=
  ⟨rfl, by decide, rfl,
   C7_success_two_events acceptCtx ⟨false⟩ 7 0 1000 rfl (by decide) rfl⟩

/-- C8: the PalletDisabled flag is only read, never written: on every
path of create_nomination_pool, success or failure, the flag after the
call equals the flag before it. -/
theorem C8_flag_never_written {A C : Type} (ctx : Ctx A) (st : State)
    (origin : Origin A) (cid : C) (value : Nat) :
    (create_nomination_pool ctx st origin cid value).state.palletDisabled =
      st.palletDisabled := by
  rw [create_nomination_pool_state ctx st origin cid value]

/-- C9: the maintenance check precedes the origin check: while the flag
is set, create_nomination_pool returns the Disabled error for every
origin, including the non-signed ones, and never the BadOrigin error. -/
theorem C9_maintenance_before_origin {A C : Type} (ctx : Ctx A) (st : State)
    (origin : Origin A) (cid : C) (value : Nat) (h : st.palletDisabled = true) :
    (create_nomination_pool ctx st origin cid value).result =
        .err (.module .Disabled) ∧
    (create_nomination_pool ctx st origin cid value).result ≠ .err .badOrigin := by
  rw [create_disabled ctx st origin cid value h]
  exact ⟨rfl, by simp⟩

/-- C9 witness: the theorem applied with the flag set and a non-signed
origin. -/
theorem C9_maintenance_before_origin_witness :
    (⟨true⟩ : State).palletDisabled = true ∧
    ((create_nomination_pool acceptCtx ⟨true⟩ (Origin.unsigned) (0 : Nat) 5).result =
        .err (.module .Disabled) ∧
     (create_nomination_pool acceptCtx ⟨true⟩ (Origin.unsigned) (0 : Nat) 5).result ≠
        .err .badOrigin) :=
  ⟨rfl, C9_maintenance_before_origin acceptCtx ⟨true⟩ .unsigned 0 5 rfl⟩

/-- C10: on the conversion-failure path no message is ever handed to
the channel: for every signed request past the gate whose amount is not
representable in u128, the list of sent messages is empty. -/
theorem C10_no_send_on_overflow {A C : Type} (ctx : Ctx A) (st : State)
    (who : A) (cid : C) (value : Nat) (h : st.palletDisabled = false)
    (hv : ¬ value < 2 ^ 128) :
    (create_nomination_pool ctx st (.signed who) cid value).sent = [] := by
  rw [create_signed_overflow ctx st who cid value h hv]

/-- C10 witness: the theorem applied at the concrete amount 2 ^ 128
with the flag clear and signed caller 7. -/
theorem C10_no_send_on_overflow_witness :
    (⟨false⟩ : State).palletDisabled = false ∧ ¬ (2 ^ 128 : Nat) < 2 ^ 128 ∧
    (create_nomination_pool acceptCtx ⟨false⟩ (.signed 7) (0 : Nat) (2 ^ 128)).sent = [] :=
  ⟨rfl, by decide,
   C10_no_send_on_overflow acceptCtx ⟨false⟩ 7 0 (2 ^ 128) rfl (by decide)⟩

end NominationPoolsStaking
